import Mathlib

/-!
Verification of the Linux minidump-writer FFI bridge
(`toolkit/crashreporter/rust_minidump_writer_linux/src/lib.rs`).

The bridge exposes two C-callable entry points, `write_minidump_linux` and
`write_minidump_linux_with_context`, which decode a caller-supplied path,
open the dump destination and delegate to the external dump-generation
engine (`MinidumpWriter`), reporting success as a boolean plus an error
string assigned into a caller-owned `nsCString`.

The embedding is a shallow one: byte strings crossing the FFI boundary are
`List Nat`; nullable pointers are `Option`; the file system is an explicit
association list from paths to file contents; the external engine and the
OS-level open failures are oracles carried by an `Env` value.  Each entry
point is a pure function from the environment and its arguments to an
`Outcome` recording the returned boolean (`none` models a fatal assertion
failure, i.e. the call does not return normally), the bytes assigned to
`error_msg` (if any), the final file system, and an ordered trace of the
observable steps the function performed.
-/

namespace MinidumpBridge

/-- Byte strings crossing the FFI boundary (`*const c_char` data, `nsCString`
contents, file contents): each element is the value of one byte. -/
abbrev Bytes := List Nat

/-- Model of `std::str::Utf8Error`: `validUpTo` is the length of the longest
valid prefix, `errorLen` the length of the invalid sequence (`none` when the
input ends with an incomplete sequence).  Mirrors Rust core's
`run_utf8_validation`. -/
structure Utf8Error where
  validUpTo : Nat
  errorLen : Option Nat
deriving DecidableEq, Repr

/-- Model of Rust core's UTF-8 validation loop (`run_utf8_validation`), which
backs `CStr::to_str` / `str::from_utf8`: walks the byte list, accepting
ASCII bytes and well-formed 2-, 3- and 4-byte sequences with exactly the
ranges Rust accepts (no overlongs, no surrogates, max U+10FFFF).  The second
argument is the index of the current byte in the whole input. -/
def utf8ValidateAux : List Nat → Nat → Except Utf8Error Unit
  | [], _ => .ok ()
  | b :: rest, i =>
    if b < 0x80 then
      utf8ValidateAux rest (i + 1)
    else if b < 0xC2 then
      .error ⟨i, some 1⟩
    else if b ≤ 0xDF then
      match rest with
      | [] => .error ⟨i, none⟩
      | b1 :: rest1 =>
        if 0x80 ≤ b1 ∧ b1 ≤ 0xBF then utf8ValidateAux rest1 (i + 2)
        else .error ⟨i, some 1⟩
    else if b ≤ 0xEF then
      match rest with
      | [] => .error ⟨i, none⟩
      | b1 :: rest1 =>
        if (b = 0xE0 ∧ 0xA0 ≤ b1 ∧ b1 ≤ 0xBF) ∨
            (0xE1 ≤ b ∧ b ≤ 0xEC ∧ 0x80 ≤ b1 ∧ b1 ≤ 0xBF) ∨
            (b = 0xED ∧ 0x80 ≤ b1 ∧ b1 ≤ 0x9F) ∨
            (0xEE ≤ b ∧ b ≤ 0xEF ∧ 0x80 ≤ b1 ∧ b1 ≤ 0xBF) then
          match rest1 with
          | [] => .error ⟨i, none⟩
          | b2 :: rest2 =>
            if 0x80 ≤ b2 ∧ b2 ≤ 0xBF then utf8ValidateAux rest2 (i + 3)
            else .error ⟨i, some 2⟩
        else .error ⟨i, some 1⟩
    else if b ≤ 0xF4 then
      match rest with
      | [] => .error ⟨i, none⟩
      | b1 :: rest1 =>
        if (b = 0xF0 ∧ 0x90 ≤ b1 ∧ b1 ≤ 0xBF) ∨
            (0xF1 ≤ b ∧ b ≤ 0xF3 ∧ 0x80 ≤ b1 ∧ b1 ≤ 0xBF) ∨
            (b = 0xF4 ∧ 0x80 ≤ b1 ∧ b1 ≤ 0x8F) then
          match rest1 with
          | [] => .error ⟨i, none⟩
          | b2 :: rest2 =>
            if 0x80 ≤ b2 ∧ b2 ≤ 0xBF then
              match rest2 with
              | [] => .error ⟨i, none⟩
              | b3 :: rest3 =>
                if 0x80 ≤ b3 ∧ b3 ≤ 0xBF then utf8ValidateAux rest3 (i + 4)
                else .error ⟨i, some 3⟩
            else .error ⟨i, some 2⟩
        else .error ⟨i, some 1⟩
    else .error ⟨i, some 1⟩

/-- Model of `CStr::to_str`'s validation: `.ok ()` exactly when the bytes are
valid UTF-8; on success the Rust code goes on using the same bytes as the
path. -/
def utf8Validate (v : Bytes) : Except Utf8Error Unit :=
  utf8ValidateAux v 0

/-- ASCII bytes of a Lean string literal, used to model Rust format-string
text (all the literal text in the bridge's format strings is ASCII). -/
def strBytes (s : String) : Bytes :=
  s.data.map Char.toNat

/-- Decimal digits of a number, as ASCII bytes (model of Rust's `Display`
for integers in the formatted messages). -/
def natDecimal (n : Nat) : Bytes :=
  strBytes (toString n)

/-- Model of `std::str::Utf8Error`'s `Display` implementation, which is what
`format!` with `{:#}` on `anyhow::Error::new(x)` prints for an error with no
source. -/
def utf8ErrorText (e : Utf8Error) : Bytes :=
  match e.errorLen with
  | some n =>
    strBytes ("invalid utf-8 sequence of ") ++ natDecimal n ++
      strBytes (" bytes from index ") ++ natDecimal e.validUpTo
  | none =>
    strBytes ("incomplete utf-8 byte sequence from index ") ++
      natDecimal e.validUpTo

/-- Model of Rust's `Debug` formatting for `str` as used by the open-failure
message's `{:?}` placeholder: the path surrounded by double quotes, with
quote, backslash, newline, carriage-return and tab escaped, other control
bytes rendered with the escape-debug form (backslash, `u`, brace, lowercase
hex, brace; the brace bytes are 123 and 125), and printable ASCII kept as
is.  Paths reaching this point are valid UTF-8; non-ASCII paths in the
messages the proofs touch do not occur. -/
def debugStrBytes (p : Bytes) : Bytes :=
  [34] ++
    (p.flatMap fun b =>
      if b = 34 then [92, 34]
      else if b = 92 then [92, 92]
      else if b = 10 then [92, 110]
      else if b = 13 then [92, 114]
      else if b = 9 then [92, 116]
      else if b < 32 then
        [92, 117, 123] ++ (Nat.toDigits 16 b).map Char.toNat ++ [125]
      else [b]) ++
  [34]

/-- Bytes assigned to `error_msg` when path decoding fails: the source's
`format!` of the text `Wrapper error. Path not convertable: ` followed by
the display of the UTF-8 error. -/
def pathNotConvertableMsg (e : Utf8Error) : Bytes :=
  strBytes ("Wrapper error. Path not convertable: ") ++ utf8ErrorText e

/-- Bytes assigned to `error_msg` when opening the destination fails: the
source's `format!` of the text
`Wrapper error when opening minidump destination at ` followed by the
debug-quoted path, a colon and space, and the display of the OS error. -/
def openDestinationMsg (p : Bytes) (osErr : Bytes) : Bytes :=
  strBytes ("Wrapper error when opening minidump destination at ") ++
    debugStrBytes p ++ strBytes (": ") ++ osErr

/-- The `InternalCrashContext` struct of the bridge (`repr(C)`), the
cross-boundary wire representation of a crash context.  The register and
signal blobs (`ucontext_t`, `fpregset_t`, `signalfd_siginfo`) are opaque to
the bridge and modelled as plain values; `pid` and `tid` are `pid_t`
(a signed 32-bit integer, modelled as `Int`). -/
structure InternalCrashContext where
  context : Nat
  float_state : Nat
  siginfo : Nat
  pid : Int
  tid : Int
deriving DecidableEq, Repr

/-- Modelled from the spec: the engine's `CrashContext` type
(`minidump_writer::crash_context::CrashContext`) is not part of this
repository; the spec's layout invariant says its wire layout is
byte-identical, field-for-field, to `InternalCrashContext`, so its `inner`
payload carries the same field values. -/
structure CrashContext where
  inner : InternalCrashContext
deriving DecidableEq, Repr

/-- Modelled from the spec: `mem::transmute_copy` from a fully initialized
`InternalCrashContext` to the engine's `CrashContext`.  Under the spec's
invariant that the two layouts are byte-identical, the reinterpretation
preserves every field value. -/
def transmute_copy (icc : InternalCrashContext) : CrashContext :=
  ⟨icc⟩

/-- Observable steps of one invocation, in the order the source performs
them: copying the supplied context, validating the path bytes, attempting
to open the destination, and calling the engine (with the process id, the
blamed thread id, and whether a crash context was attached). -/
inductive Event where
  | copyContext (icc : InternalCrashContext)
  | decodePath (ok : Bool)
  | openAttempt (path : Bytes)
  | engineCall (pid : Int) (tid : Int) (withCtx : Bool)
deriving DecidableEq, Repr

/-- File system state: an association list from paths to file contents; a
later entry for the same path is shadowed by an earlier one. -/
abbrev FileSys := List (Bytes × Bytes)

/-- First content bound to a path, if the file exists. -/
def fsLookup : FileSys → Bytes → Option Bytes
  | [], _ => none
  | (k, v) :: rest, p => if k = p then some v else fsLookup rest p

/-- Bind a path to a content (creating or replacing the file). -/
def fsInsert (fs : FileSys) (p : Bytes) (c : Bytes) : FileSys :=
  (p, c) :: fs

/-- Environment of one invocation: the file system before the call, an
oracle for OS-level open failures (the OS error display for paths that fail
to open), and the dump-generation engine.  The engine is modelled from the
spec as the external collaborator behind `MinidumpWriter`: given the process
id, the blamed thread id and the optional crash context, it either succeeds
and yields the bytes it wrote into the destination (from position zero), or
fails with the display of its error (what `{:#}` formatting prints). -/
structure Env where
  fs : FileSys
  openErr : Bytes → Option Bytes
  engine : Int → Int → Option CrashContext → Except Bytes Bytes

/-- Model of `OpenOptions::new().create(true).write(true).open(path)` as the
source writes it: `create(true)` makes the file exist (empty if absent) and
`write(true)` opens it for writing at position zero — note that no
`truncate(true)` is requested, so an existing file keeps its previous
content.  Returns the content visible through the handle and the file
system after the open, or the OS error. -/
def openCreateWrite (env : Env) (p : Bytes) : Except Bytes (Bytes × FileSys) :=
  match env.openErr p with
  | some e => .error e
  | none =>
    let content := (fsLookup env.fs p).getD []
    .ok (content, fsInsert env.fs p content)

/-- Result of one invocation: `ret = none` models a fatal assertion failure
(the call does not return normally), `ret = some b` a normal return of `b`;
`errorMsg` is `some m` exactly when the function assigned `m` into the
caller-owned `error_msg` string; `fs` is the file system after the call and
`trace` the ordered observable steps. -/
structure Outcome where
  ret : Option Bool
  errorMsg : Option Bytes
  fs : FileSys
  trace : List Event
deriving DecidableEq, Repr

/-- Shallow embedding of `write_minidump_linux` (lib.rs lines 28 to 76):
assert the path pointer is non-null, decode it as UTF-8, open the
destination with create and write (no truncate), and run the engine with
the supplied process id and blamed thread id; failures assign a formatted
message and return false. -/
def write_minidump_linux (env : Env) (dump_path : Option Bytes)
    (child : Int) (child_blamed_thread : Int) : Outcome :=
  match dump_path with
  | none =>
    { ret := none, errorMsg := none, fs := env.fs, trace := [] }
  | some c_path =>
    match utf8Validate c_path with
    | .error x =>
      { ret := some false, errorMsg := some (pathNotConvertableMsg x),
        fs := env.fs, trace := [.decodePath false] }
    | .ok _ =>
      let path := c_path
      match openCreateWrite env path with
      | .error x =>
        { ret := some false, errorMsg := some (openDestinationMsg path x),
          fs := env.fs, trace := [.decodePath true, .openAttempt path] }
      | .ok (content, fs1) =>
        match env.engine child child_blamed_thread none with
        | .ok written =>
          { ret := some true, errorMsg := none,
            fs := fsInsert fs1 path (written ++ content.drop written.length),
            trace := [.decodePath true, .openAttempt path,
              .engineCall child child_blamed_thread false] }
        | .error x =>
          { ret := some false, errorMsg := some x, fs := fs1,
            trace := [.decodePath true, .openAttempt path,
              .engineCall child child_blamed_thread false] }

/-- Shallow embedding of `write_minidump_linux_with_context` (lib.rs lines
79 to 131): assert the path pointer is non-null, assert the context pointer
is non-null and transmute-copy the context, then decode the path, open the
destination with create and write (no truncate), and run the engine with
the supplied process id and the thread id taken from the copied context;
failures assign a formatted message and return false. -/
def write_minidump_linux_with_context (env : Env) (dump_path : Option Bytes)
    (child : Int) (context : Option InternalCrashContext) : Outcome :=
  match dump_path with
  | none =>
    { ret := none, errorMsg := none, fs := env.fs, trace := [] }
  | some c_path =>
    match context with
    | none =>
      { ret := none, errorMsg := none, fs := env.fs, trace := [] }
    | some icc =>
      let cc : CrashContext := transmute_copy icc
      match utf8Validate c_path with
      | .error x =>
        { ret := some false, errorMsg := some (pathNotConvertableMsg x),
          fs := env.fs, trace := [.copyContext icc, .decodePath false] }
      | .ok _ =>
        let path := c_path
        match openCreateWrite env path with
        | .error x =>
          { ret := some false, errorMsg := some (openDestinationMsg path x),
            fs := env.fs,
            trace := [.copyContext icc, .decodePath true, .openAttempt path] }
        | .ok (content, fs1) =>
          match env.engine child cc.inner.tid (some cc) with
          | .ok written =>
            { ret := some true, errorMsg := none,
              fs := fsInsert fs1 path (written ++ content.drop written.length),
              trace := [.copyContext icc, .decodePath true, .openAttempt path,
                .engineCall child cc.inner.tid true] }
          | .error x =>
            { ret := some false, errorMsg := some x, fs := fs1,
              trace := [.copyContext icc, .decodePath true, .openAttempt path,
                .engineCall child cc.inner.tid true] }

/-- An event trace touches the file system or the engine when it opens a
file or calls the engine. -/
def touchesFs : Event → Bool
  | .openAttempt _ => true
  | .engineCall _ _ _ => true
  | _ => false

/-- A trace with no file-system access and no engine call. -/
def noFsAccess (tr : List Event) : Prop :=
  tr.all (fun ev => !(touchesFs ev)) = true

/-- Environment in which every open succeeds and the engine writes two
bytes, over an empty file system. -/
def env0 : Env :=
  { fs := [], openErr := fun _ => none, engine := fun _ _ _ => .ok [7, 7] }

/-- Environment in which the destination file already holds six bytes of a
prior capture and the engine writes a two-byte second capture. -/
def env1 : Env :=
  { fs := [([97], [9, 9, 9, 9, 9, 9])],
    openErr := fun _ => none,
    engine := fun _ _ _ => .ok [7, 7] }

/-- Environment in which every open fails with a permission error and the
engine (never reached through the open) would report a missing process. -/
def envOpenFail : Env :=
  { fs := [],
    openErr := fun _ => some (strBytes ("Permission denied (os error 13)")),
    engine := fun _ _ _ => .error (strBytes ("Process 12345 not found")) }

/-- Environment in which the engine fails with the display of its error,
as for a non-existent target process. -/
def envEngineFail : Env :=
  { fs := [],
    openErr := fun _ => none,
    engine := fun _ _ _ => .error (strBytes ("Process 12345 not found")) }

/-- Concrete fully initialized crash context used by the witnesses. -/
def icc0 : InternalCrashContext :=
  { context := 11, float_state := 12, siginfo := 13, pid := 5, tid := 6 }

/-- Run equation of `write_minidump_linux` when path decoding fails. -/
theorem wml_decode_err (env : Env) (p : Bytes) (child tid : Int)
    (e : Utf8Error) (h : utf8Validate p = .error e) :
    write_minidump_linux env (some p) child tid =
      { ret := some false, errorMsg := some (pathNotConvertableMsg e),
        fs := env.fs, trace := [.decodePath false] } := by
  simp [write_minidump_linux, h]

/-- Run equation of `write_minidump_linux` when the open fails. -/
theorem wml_open_err (env : Env) (p : Bytes) (child tid : Int) (os : Bytes)
    (h : utf8Validate p = .ok ()) (ho : env.openErr p = some os) :
    write_minidump_linux env (some p) child tid =
      { ret := some false, errorMsg := some (openDestinationMsg p os),
        fs := env.fs, trace := [.decodePath true, .openAttempt p] } := by
  simp [write_minidump_linux, h, openCreateWrite, ho]

/-- Run equation of `write_minidump_linux` when the engine succeeds: the
destination holds the engine's bytes followed by whatever tail of the
previous content they did not overwrite. -/
theorem wml_engine_ok (env : Env) (p : Bytes) (child tid : Int) (w : Bytes)
    (h : utf8Validate p = .ok ()) (ho : env.openErr p = none)
    (he : env.engine child tid none = .ok w) :
    write_minidump_linux env (some p) child tid =
      { ret := some true, errorMsg := none,
        fs := fsInsert (fsInsert env.fs p ((fsLookup env.fs p).getD []))
          p (w ++ ((fsLookup env.fs p).getD []).drop w.length),
        trace := [.decodePath true, .openAttempt p,
          .engineCall child tid false] } := by
  simp [write_minidump_linux, h, openCreateWrite, ho, he]

/-- Run equation of `write_minidump_linux` when the engine fails. -/
theorem wml_engine_err (env : Env) (p : Bytes) (child tid : Int) (m : Bytes)
    (h : utf8Validate p = .ok ()) (ho : env.openErr p = none)
    (he : env.engine child tid none = .error m) :
    write_minidump_linux env (some p) child tid =
      { ret := some false, errorMsg := some m,
        fs := fsInsert env.fs p ((fsLookup env.fs p).getD []),
        trace := [.decodePath true, .openAttempt p,
          .engineCall child tid false] } := by
  simp [write_minidump_linux, h, openCreateWrite, ho, he]

/-- Run equation of `write_minidump_linux_with_context` when path decoding
fails: the context was still copied, before the validation. -/
theorem wmlc_decode_err (env : Env) (p : Bytes) (child : Int)
    (icc : InternalCrashContext) (e : Utf8Error)
    (h : utf8Validate p = .error e) :
    write_minidump_linux_with_context env (some p) child (some icc) =
      { ret := some false, errorMsg := some (pathNotConvertableMsg e),
        fs := env.fs, trace := [.copyContext icc, .decodePath false] } := by
  simp [write_minidump_linux_with_context, h]

/-- Run equation of `write_minidump_linux_with_context` when the open
fails. -/
theorem wmlc_open_err (env : Env) (p : Bytes) (child : Int)
    (icc : InternalCrashContext) (os : Bytes)
    (h : utf8Validate p = .ok ()) (ho : env.openErr p = some os) :
    write_minidump_linux_with_context env (some p) child (some icc) =
      { ret := some false, errorMsg := some (openDestinationMsg p os),
        fs := env.fs,
        trace := [.copyContext icc, .decodePath true, .openAttempt p] } := by
  simp [write_minidump_linux_with_context, h, openCreateWrite, ho]

/-- Run equation of `write_minidump_linux_with_context` when the engine
succeeds: the engine is called with the process id supplied by the caller
and the thread id carried in the copied context. -/
theorem wmlc_engine_ok (env : Env) (p : Bytes) (child : Int)
    (icc : InternalCrashContext) (w : Bytes)
    (h : utf8Validate p = .ok ()) (ho : env.openErr p = none)
    (he : env.engine child icc.tid (some (transmute_copy icc)) = .ok w) :
    write_minidump_linux_with_context env (some p) child (some icc) =
      { ret := some true, errorMsg := none,
        fs := fsInsert (fsInsert env.fs p ((fsLookup env.fs p).getD []))
          p (w ++ ((fsLookup env.fs p).getD []).drop w.length),
        trace := [.copyContext icc, .decodePath true, .openAttempt p,
          .engineCall child icc.tid true] } := by
  simp [write_minidump_linux_with_context, h, openCreateWrite, ho,
    transmute_copy] at he ⊢
  simp [he]

/-- Run equation of `write_minidump_linux_with_context` when the engine
fails. -/
theorem wmlc_engine_err (env : Env) (p : Bytes) (child : Int)
    (icc : InternalCrashContext) (m : Bytes)
    (h : utf8Validate p = .ok ()) (ho : env.openErr p = none)
    (he : env.engine child icc.tid (some (transmute_copy icc)) = .error m) :
    write_minidump_linux_with_context env (some p) child (some icc) =
      { ret := some false, errorMsg := some m,
        fs := fsInsert env.fs p ((fsLookup env.fs p).getD []),
        trace := [.copyContext icc, .decodePath true, .openAttempt p,
          .engineCall child icc.tid true] } := by
  simp [write_minidump_linux_with_context, h, openCreateWrite, ho,
    transmute_copy] at he ⊢
  simp [he]

/-- The path-decoding failure message is never empty. -/
theorem pathNotConvertableMsg_ne_nil (e : Utf8Error) :
    pathNotConvertableMsg e ≠ [] := by
  unfold pathNotConvertableMsg
  intro h
  exact absurd (List.append_eq_nil.mp h).1 (by decide)

/-- The open-failure message is never empty. -/
theorem openDestinationMsg_ne_nil (p os : Bytes) :
    openDestinationMsg p os ≠ [] := by
  unfold openDestinationMsg
  intro h
  have h1 := (List.append_eq_nil.mp h).1
  have h2 := (List.append_eq_nil.mp h1).1
  have h3 := (List.append_eq_nil.mp h2).1
  exact absurd h3 (by decide)

/-- The path-decoding failure message starts with the wrapper marker. -/
theorem wrapper_prefix_pathNotConvertableMsg (e : Utf8Error) :
    strBytes ("Wrapper error") <+: pathNotConvertableMsg e := by
  unfold pathNotConvertableMsg
  exact List.IsPrefix.trans (by decide) (List.prefix_append _ _)

/-- The open-failure message starts with the wrapper marker. -/
theorem wrapper_prefix_openDestinationMsg (p os : Bytes) :
    strBytes ("Wrapper error") <+: openDestinationMsg p os := by
  have h : openDestinationMsg p os =
      strBytes ("Wrapper error when opening minidump destination at ") ++
        (debugStrBytes p ++ (strBytes (": ") ++ os)) := by
    simp [openDestinationMsg, List.append_assoc]
  rw [h]
  exact List.IsPrefix.trans (by decide) (List.prefix_append _ _)

/-- The open-failure message carries the debug-quoted offending path. -/
theorem path_infix_openDestinationMsg (p os : Bytes) :
    debugStrBytes p <:+: openDestinationMsg p os :=
  ⟨strBytes ("Wrapper error when opening minidump destination at "),
    strBytes (": ") ++ os, by simp [openDestinationMsg]⟩

set_option maxRecDepth 8000

/-- C1: the claim says a successful capture over an existing file truncates
it so the result holds only the new capture.  The code (and its own inline
comment saying the open truncates) opens with create and write but without
truncate, so at this concrete input — destination `[97]` holding six bytes
of a prior capture, engine writing two bytes — the call returns true yet
the file ends as the two new bytes followed by four bytes of prior
content, not the two new bytes alone. -/
theorem c1_second_capture_keeps_prior_tail :
    (write_minidump_linux env1 (some [97]) 1 2).ret = some true ∧
    fsLookup (write_minidump_linux env1 (some [97]) 1 2).fs [97] =
      some [7, 7, 9, 9, 9, 9] ∧
    [7, 7, 9, 9, 9, 9] ≠ [7, 7] := by decide

/-- C2: for every non-null dump path whose bytes are not valid UTF-8, both
entry points return false with the wrapper-level decoding diagnostic, the
file system is untouched (no file created or opened) and the engine is
never invoked. -/
theorem c2_invalid_path_short_circuits (env : Env) (p : Bytes)
    (e : Utf8Error) (child tid : Int) (icc : InternalCrashContext)
    (h : utf8Validate p = .error e) :
    (write_minidump_linux env (some p) child tid).ret = some false ∧
    (write_minidump_linux env (some p) child tid).errorMsg =
      some (pathNotConvertableMsg e) ∧
    (write_minidump_linux env (some p) child tid).fs = env.fs ∧
    noFsAccess (write_minidump_linux env (some p) child tid).trace ∧
    (write_minidump_linux_with_context env (some p) child (some icc)).ret =
      some false ∧
    (write_minidump_linux_with_context env (some p) child (some icc)).errorMsg =
      some (pathNotConvertableMsg e) ∧
    (write_minidump_linux_with_context env (some p) child (some icc)).fs =
      env.fs ∧
    noFsAccess
      (write_minidump_linux_with_context env (some p) child (some icc)).trace := by
  rw [wml_decode_err env p child tid e h, wmlc_decode_err env p child icc e h]
  exact ⟨rfl, rfl, rfl, rfl, rfl, rfl, rfl, rfl⟩

/-- Witness for C2 at the one-byte invalid path `[255]`. -/
theorem c2_invalid_path_short_circuits_witness :
    utf8Validate [255] = .error ⟨0, some 1⟩ ∧
    (write_minidump_linux env0 (some [255]) 1 2).ret = some false ∧
    (write_minidump_linux env0 (some [255]) 1 2).fs = env0.fs ∧
    noFsAccess (write_minidump_linux env0 (some [255]) 1 2).trace := by
  have h := c2_invalid_path_short_circuits env0 [255] ⟨0, some 1⟩ 1 2 icc0 rfl
  exact ⟨rfl, h.1, h.2.2.1, h.2.2.2.1⟩

/-- C3: for every invocation that returns normally, the return value is
true exactly when path decoding, the open and the engine dump all
succeeded; and every false return comes with a non-empty assigned error
message (given that the engine, as the spec describes it, reports its
failures with non-empty display text). -/
theorem c3_return_value_and_error_msg (env : Env) (p : Bytes)
    (child tid : Int) (icc : InternalCrashContext)
    (h1 : ∀ m, env.engine child tid none = .error m → m ≠ [])
    (h2 : ∀ m, env.engine child icc.tid (some (transmute_copy icc)) =
      .error m → m ≠ []) :
    ((write_minidump_linux env (some p) child tid).ret = some true ↔
      utf8Validate p = .ok () ∧ env.openErr p = none ∧
        (∃ w, env.engine child tid none = .ok w)) ∧
    ((write_minidump_linux env (some p) child tid).ret = some false →
      ∃ m, (write_minidump_linux env (some p) child tid).errorMsg = some m ∧
        m ≠ []) ∧
    ((write_minidump_linux_with_context env (some p) child (some icc)).ret =
        some true ↔
      utf8Validate p = .ok () ∧ env.openErr p = none ∧
        (∃ w, env.engine child icc.tid (some (transmute_copy icc)) = .ok w)) ∧
    ((write_minidump_linux_with_context env (some p) child (some icc)).ret =
        some false →
      ∃ m, (write_minidump_linux_with_context env (some p) child
        (some icc)).errorMsg = some m ∧ m ≠ []) := by
  cases hu : utf8Validate p with
  | error e =>
    rw [wml_decode_err env p child tid e hu, wmlc_decode_err env p child icc e hu]
    refine ⟨by simp [hu], ?_, by simp [hu], ?_⟩
    · intro _; exact ⟨_, rfl, pathNotConvertableMsg_ne_nil e⟩
    · intro _; exact ⟨_, rfl, pathNotConvertableMsg_ne_nil e⟩
  | ok u =>
    cases u
    cases ho : env.openErr p with
    | some os =>
      rw [wml_open_err env p child tid os hu ho,
        wmlc_open_err env p child icc os hu ho]
      refine ⟨by simp [ho], ?_, by simp [ho], ?_⟩
      · intro _; exact ⟨_, rfl, openDestinationMsg_ne_nil p os⟩
      · intro _; exact ⟨_, rfl, openDestinationMsg_ne_nil p os⟩
    | none =>
      refine ⟨?_, ?_, ?_, ?_⟩
      · cases he : env.engine child tid none with
        | ok w =>
          rw [wml_engine_ok env p child tid w hu ho he]; simp [hu, ho, he]
        | error m =>
          rw [wml_engine_err env p child tid m hu ho he]; simp [hu, ho, he]
      · cases he : env.engine child tid none with
        | ok w =>
          rw [wml_engine_ok env p child tid w hu ho he]
          intro hf; simp at hf
        | error m =>
          rw [wml_engine_err env p child tid m hu ho he]
          intro _; exact ⟨m, rfl, h1 m he⟩
      · cases he : env.engine child icc.tid (some (transmute_copy icc)) with
        | ok w =>
          rw [wmlc_engine_ok env p child icc w hu ho he]; simp [hu, ho, he]
        | error m =>
          rw [wmlc_engine_err env p child icc m hu ho he]; simp [hu, ho, he]
      · cases he : env.engine child icc.tid (some (transmute_copy icc)) with
        | ok w =>
          rw [wmlc_engine_ok env p child icc w hu ho he]
          intro hf; simp at hf
        | error m =>
          rw [wmlc_engine_err env p child icc m hu ho he]
          intro _; exact ⟨m, rfl, h2 m he⟩

/-- Witness for C3: at a valid path, an always-succeeding open and engine,
the equivalence is exercised with the hypotheses discharged. -/
theorem c3_return_value_and_error_msg_witness :
    (write_minidump_linux env0 (some [97]) 1 2).ret = some true ↔
      utf8Validate [97] = .ok () ∧ env0.openErr [97] = none ∧
        (∃ w, env0.engine 1 2 none = .ok w) :=
  (c3_return_value_and_error_msg env0 [97] 1 2 icc0
    (fun m hm => by simp [env0] at hm)
    (fun m hm => by simp [env0] at hm)).1

/-- C4: whenever `write_minidump_linux_with_context` calls the engine, the
blamed thread id it passes is the `tid` field carried in the supplied
context (the entry point has no blamed-thread parameter), and the process
id it passes is the separately supplied child pid. -/
theorem c4_tid_from_context (env : Env) (p : Bytes) (child : Int)
    (icc : InternalCrashContext) (pid tid : Int) (b : Bool)
    (h : Event.engineCall pid tid b ∈
      (write_minidump_linux_with_context env (some p) child (some icc)).trace) :
    pid = child ∧ tid = icc.tid ∧ b = true := by
  cases hu : utf8Validate p with
  | error e =>
    rw [wmlc_decode_err env p child icc e hu] at h; simp at h
  | ok u =>
    cases u
    cases ho : env.openErr p with
    | some os =>
      rw [wmlc_open_err env p child icc os hu ho] at h; simp at h
    | none =>
      cases he : env.engine child icc.tid (some (transmute_copy icc)) with
      | ok w =>
        rw [wmlc_engine_ok env p child icc w hu ho he] at h
        simp at h
        exact ⟨h.1, h.2.1, h.2.2⟩
      | error m =>
        rw [wmlc_engine_err env p child icc m hu ho he] at h
        simp at h
        exact ⟨h.1, h.2.1, h.2.2⟩

/-- Witness for C4: a run whose trace contains the engine call with the
caller's pid 1 and the context's tid 6. -/
theorem c4_tid_from_context_witness :
    (1 : Int) = 1 ∧ (6 : Int) = icc0.tid ∧ true = true :=
  c4_tid_from_context env0 [97] 1 icc0 1 6 true (by decide)

/-- C5: a null dump path is a fatal assertion failure in both entry points:
the call does not return normally, assigns nothing to the error string and
leaves the file system untouched. -/
theorem c5_null_dump_path_fatal (env : Env) (child tid : Int)
    (context : Option InternalCrashContext) :
    (write_minidump_linux env none child tid).ret = none ∧
    (write_minidump_linux env none child tid).errorMsg = none ∧
    (write_minidump_linux env none child tid).fs = env.fs ∧
    (write_minidump_linux_with_context env none child context).ret = none ∧
    (write_minidump_linux_with_context env none child context).errorMsg =
      none ∧
    (write_minidump_linux_with_context env none child context).fs = env.fs :=
  ⟨rfl, rfl, rfl, rfl, rfl, rfl⟩

/-- C6: a null context pointer in `write_minidump_linux_with_context` is a
fatal assertion failure: the call does not return normally and assigns
nothing to the error string. -/
theorem c6_null_context_fatal (env : Env) (p : Bytes) (child : Int) :
    (write_minidump_linux_with_context env (some p) child none).ret = none ∧
    (write_minidump_linux_with_context env (some p) child none).errorMsg =
      none ∧
    (write_minidump_linux_with_context env (some p) child none).fs = env.fs ∧
    (write_minidump_linux_with_context env (some p) child none).trace = [] :=
  ⟨rfl, rfl, rfl, rfl⟩

/-- Counterexample to C7 as stated: at the invalid path `[255]` the call
fails with the wrapper-level decoding diagnostic, yet that message does not
include the offending path — the byte 255 does not occur in it at all, so
no wrapper-level context naming the path is present. -/
theorem c7_wrapper_includes_path_counterexample :
    (write_minidump_linux env0 (some [255]) 1 2).ret = some false ∧
    (write_minidump_linux env0 (some [255]) 1 2).errorMsg =
      some (pathNotConvertableMsg ⟨0, some 1⟩) ∧
    ¬ ((255 : Nat) ∈ pathNotConvertableMsg ⟨0, some 1⟩) ∧
    ¬ ([255] <:+: pathNotConvertableMsg ⟨0, some 1⟩) := by decide

/-- C7 as amended: wrapper-level failures are marked with the wrapper
prefix `Wrapper error`; the open failure names the offending (debug-quoted)
path together with the underlying error, the decoding failure carries the
decoding diagnostic but not the path, and engine-level failures are
propagated verbatim, with no wrapper-specific prefix or context added, in
both entry points. -/
theorem c7_error_classes (env : Env) (p : Bytes) (child tid : Int)
    (icc : InternalCrashContext) :
    (∀ e, utf8Validate p = .error e →
      (write_minidump_linux env (some p) child tid).errorMsg =
        some (pathNotConvertableMsg e) ∧
      (write_minidump_linux_with_context env (some p) child
        (some icc)).errorMsg = some (pathNotConvertableMsg e) ∧
      strBytes ("Wrapper error") <+: pathNotConvertableMsg e) ∧
    (∀ os, utf8Validate p = .ok () → env.openErr p = some os →
      (write_minidump_linux env (some p) child tid).errorMsg =
        some (openDestinationMsg p os) ∧
      (write_minidump_linux_with_context env (some p) child
        (some icc)).errorMsg = some (openDestinationMsg p os) ∧
      strBytes ("Wrapper error") <+: openDestinationMsg p os ∧
      debugStrBytes p <:+: openDestinationMsg p os) ∧
    (∀ m, utf8Validate p = .ok () → env.openErr p = none →
      env.engine child tid none = .error m →
      (write_minidump_linux env (some p) child tid).errorMsg = some m) ∧
    (∀ m, utf8Validate p = .ok () → env.openErr p = none →
      env.engine child icc.tid (some (transmute_copy icc)) = .error m →
      (write_minidump_linux_with_context env (some p) child
        (some icc)).errorMsg = some m) := by
  refine ⟨?_, ?_, ?_, ?_⟩
  · intro e he
    rw [wml_decode_err env p child tid e he,
      wmlc_decode_err env p child icc e he]
    exact ⟨rfl, rfl, wrapper_prefix_pathNotConvertableMsg e⟩
  · intro os hu ho
    rw [wml_open_err env p child tid os hu ho,
      wmlc_open_err env p child icc os hu ho]
    exact ⟨rfl, rfl, wrapper_prefix_openDestinationMsg p os,
      path_infix_openDestinationMsg p os⟩
  · intro m hu ho he
    rw [wml_engine_err env p child tid m hu ho he]
  · intro m hu ho he
    rw [wmlc_engine_err env p child icc m hu ho he]

/-- Witness for C7 at a concrete failing open: the message is the wrapper
format carrying the quoted path and the OS error. -/
theorem c7_error_classes_witness :
    (write_minidump_linux envOpenFail (some [97]) 1 2).errorMsg =
      some (openDestinationMsg [97]
        (strBytes ("Permission denied (os error 13)"))) ∧
    (write_minidump_linux_with_context envOpenFail (some [97]) 1
      (some icc0)).errorMsg =
      some (openDestinationMsg [97]
        (strBytes ("Permission denied (os error 13)"))) ∧
    strBytes ("Wrapper error") <+:
      openDestinationMsg [97] (strBytes ("Permission denied (os error 13)")) ∧
    debugStrBytes [97] <:+:
      openDestinationMsg [97] (strBytes ("Permission denied (os error 13)")) :=
  (c7_error_classes envOpenFail [97] 1 2 icc0).2.1
    (strBytes ("Permission denied (os error 13)")) rfl rfl

/-- C9: on every normal return of true, neither entry point has assigned
the caller-owned error string: it is written only on failure paths. -/
theorem c9_error_msg_untouched_on_success (env : Env) (p : Option Bytes)
    (child tid : Int) (icc : Option InternalCrashContext) :
    ((write_minidump_linux env p child tid).ret = some true →
      (write_minidump_linux env p child tid).errorMsg = none) ∧
    ((write_minidump_linux_with_context env p child icc).ret = some true →
      (write_minidump_linux_with_context env p child icc).errorMsg = none) := by
  constructor
  · cases p with
    | none => intro hf; simp [write_minidump_linux] at hf
    | some q =>
      cases hu : utf8Validate q with
      | error e =>
        rw [wml_decode_err env q child tid e hu]; intro hf; simp at hf
      | ok u =>
        cases u
        cases ho : env.openErr q with
        | some os =>
          rw [wml_open_err env q child tid os hu ho]; intro hf; simp at hf
        | none =>
          cases he : env.engine child tid none with
          | ok w => rw [wml_engine_ok env q child tid w hu ho he]; intro _; rfl
          | error m =>
            rw [wml_engine_err env q child tid m hu ho he]
            intro hf; simp at hf
  · cases p with
    | none => intro hf; simp [write_minidump_linux_with_context] at hf
    | some q =>
      cases icc with
      | none => intro hf; simp [write_minidump_linux_with_context] at hf
      | some c =>
        cases hu : utf8Validate q with
        | error e =>
          rw [wmlc_decode_err env q child c e hu]; intro hf; simp at hf
        | ok u =>
          cases u
          cases ho : env.openErr q with
          | some os =>
            rw [wmlc_open_err env q child c os hu ho]; intro hf; simp at hf
          | none =>
            cases he : env.engine child c.tid (some (transmute_copy c)) with
            | ok w =>
              rw [wmlc_engine_ok env q child c w hu ho he]; intro _; rfl
            | error m =>
              rw [wmlc_engine_err env q child c m hu ho he]
              intro hf; simp at hf

/-- Witness for C9: a fully successful run of each entry point leaves the
error string unassigned. -/
theorem c9_error_msg_untouched_on_success_witness :
    (write_minidump_linux env0 (some [97]) 1 2).errorMsg = none ∧
    (write_minidump_linux_with_context env0 (some [97]) 1
      (some icc0)).errorMsg = none := by
  have h := c9_error_msg_untouched_on_success env0 (some [97]) 1 2 (some icc0)
  exact ⟨h.1 (by decide), h.2 (by decide)⟩

/-- C10: the non-null assertion on the context and the copy of the context
happen before path validation: with an invalid path, a null context still
aborts fatally (no normal return, nothing assigned), and with a context
supplied the trace shows the copy strictly before the failed decode of a
call that returns false. -/
theorem c10_context_copied_before_path_validation (env : Env) (p : Bytes)
    (e : Utf8Error) (child : Int) (icc : InternalCrashContext)
    (h : utf8Validate p = .error e) :
    ((write_minidump_linux_with_context env (some p) child none).ret =
        none ∧
      (write_minidump_linux_with_context env (some p) child none).errorMsg =
        none) ∧
    ((write_minidump_linux_with_context env (some p) child (some icc)).ret =
        some false ∧
      (write_minidump_linux_with_context env (some p) child
        (some icc)).trace = [Event.copyContext icc, Event.decodePath false]) := by
  refine ⟨⟨rfl, rfl⟩, ?_⟩
  rw [wmlc_decode_err env p child icc e h]
  exact ⟨rfl, rfl⟩

/-- Witness for C10 at the invalid path `[255]`. -/
theorem c10_context_copied_before_path_validation_witness :
    ((write_minidump_linux_with_context env0 (some [255]) 1 none).ret =
        none ∧
      (write_minidump_linux_with_context env0 (some [255]) 1 none).errorMsg =
        none) ∧
    ((write_minidump_linux_with_context env0 (some [255]) 1
        (some icc0)).ret = some false ∧
      (write_minidump_linux_with_context env0 (some [255]) 1
        (some icc0)).trace =
        [Event.copyContext icc0, Event.decodePath false]) :=
  c10_context_copied_before_path_validation env0 [255] ⟨0, some 1⟩ 1 icc0 rfl

end MinidumpBridge
